import Mathlib

/-!
Shallow embedding of dev-proxy (src/src/main.rs).

The program is a development HTTP proxy: a `DevProxService` holds a document
root (`root : PathBuf`) and an ordered list of `ProxyRoute`s.  On each
request, `DevProxService::call` takes the path component of the request URI,
finds the first route whose `route` string is a literal prefix of the path,
and either forwards the request to that route's target (`ProxyRoute::request`)
or, if no route matches, serves a static file resolved against `root`
(`StaticFileFuture::poll`).

Modelling conventions:
* Rust strings are modelled as `List Char`.  Rust's `str::starts_with` /
  `str::strip_prefix` are byte-wise, which on valid UTF-8 strings agrees
  with character-wise prefix matching, so `List.isPrefixOf` / drop are
  faithful.
* `hyper`'s `Request` stores a parsed `Uri`; `request.uri().path()` returns
  only the path component, never the query string.  `Request` below therefore
  carries `path` and `query` as separate fields and the code only ever reads
  `path`, exactly as `uri().path()` does.
* File-system state is a parameter `fs : List (List Char) → OpenResult`
  mapping an OS-resolved absolute path (list of segments, `..`/`.`/empty
  segments already resolved by `resolvePath`, as the kernel does at
  `File::open` time) to the outcome of `File::open` plus the file's bytes.
* `hyper`'s URI parser and HTTP client are external collaborators; they are
  parameters `parseUri : List Char → Bool` (does the string parse as a
  `Uri`?) and `backend : OutboundRequest → Except HyperError Response`
  (the `Client::request` call made by `ProxyRoute::request`; the stored
  `client: Client<HttpConnector>` field is represented by this parameter).
* A Rust panic (`Option::unwrap` / `Result::unwrap` on a failure) is the
  explicit outcome `DispatchOutcome.panic`; an `Err` returned from the
  service future is `DispatchOutcome.err`.
-/

/-- Rust `io::ErrorKind`, restricted to the kinds the program distinguishes:
`NotFound` (handled specially in `StaticFileFuture::poll`), `InvalidData`
(what `read_to_string` returns on non-UTF-8 content), and the rest. -/
inductive IoErrorKind where
  | notFound
  | permissionDenied
  | invalidData
  | other
deriving DecidableEq, Repr

/-- The `hyper::Error` type as an opaque transport-error token (connection refused,
reset, malformed backend response, ...). -/
inductive HyperError where
  | transport
deriving DecidableEq, Repr

/-- Rust `enum ProxyError { Proxy(io::Error), Http(hyper::Error) }` (main.rs:38-42).
An `io::Error` is represented by its kind. -/
inductive ProxyError where
  | proxy (kind : IoErrorKind)
  | http (err : HyperError)
deriving DecidableEq, Repr

/-- An HTTP response: status, headers, body bytes. -/
structure Response where
  status : Nat
  headers : List (List Char × List Char)
  body : List Nat
deriving DecidableEq, Repr

/-- The inbound `Request<Body>`: method, the path component of its URI, the
query component of its URI (unused by the program, see C10), headers, body. -/
structure Request where
  method : List Char
  path : List Char
  query : Option (List Char)
  headers : List (List Char × List Char)
  body : List Nat
deriving DecidableEq, Repr

/-- The outbound request built by `ProxyRoute::request` via
`Request::builder()`: method, full target URI (as the string that was parsed),
headers, body.  `Request::builder()` starts from an empty header map. -/
structure OutboundRequest where
  method : List Char
  uri : List Char
  headers : List (List Char × List Char)
  body : List Nat
deriving DecidableEq, Repr

/-- Outcome of one `Service::call` future: a response, a `ProxyError`
returned as `Err` to the connection layer, or a panic. -/
inductive DispatchOutcome where
  | ok (r : Response)
  | err (e : ProxyError)
  | panic
deriving DecidableEq, Repr

/-- Outcome of `File::open` on a resolved path: success (with the file's
byte content, read afterwards by `read_to_string`) or failure with an
`io::ErrorKind`. -/
inductive OpenResult where
  | file (bytes : List Nat)
  | openErr (kind : IoErrorKind)
deriving DecidableEq, Repr

/-- Rust `str::strip_prefix`: `some` of the remainder when `p` is a literal
prefix of `s`, otherwise `none`. -/
def stripPrefix (s p : List Char) : Option (List Char) :=
  if p.isPrefixOf s then some (s.drop p.length) else none

/-- Rust `PathBuf::join` (i.e. `push`) on path strings: an absolute argument
replaces the base; otherwise the argument is appended after a `/` separator
(no separator added if the base already ends in one). -/
def pathJoin (base rel : List Char) : List Char :=
  if rel.head? = some '/' then rel
  else if base.getLast? = some '/' then base ++ rel
  else base ++ '/' :: rel

/-- Split a path string on `/` (keeping empty segments, which the kernel
ignores during resolution). -/
def splitSegs : List Char → List (List Char)
  | [] => [[]]
  | '/' :: rest => [] :: splitSegs rest
  | c :: rest =>
    match splitSegs rest with
    | [] => [[c]]
    | s :: ss => (c :: s) :: ss

/-- One step of kernel path resolution: empty and `.` segments are ignored,
`..` removes the last resolved segment (staying at `/` when already there),
anything else descends. -/
def resolveStep (acc : List (List Char)) (s : List Char) : List (List Char) :=
  if s = [] ∨ s = ['.'] then acc
  else if s = ['.', '.'] then acc.dropLast
  else acc ++ [s]

/-- OS-level resolution of an absolute path string at `File::open` time:
split into segments and resolve `..`/`.`/empty segments left to right. -/
def resolvePath (p : List Char) : List (List Char) :=
  (splitSegs p).foldl resolveStep []

/-- Whether a byte sequence is valid UTF-8 (the check `read_to_string`
performs; it fails with `InvalidData` otherwise).  Follows the standard
table: C2..DF, E0 (A0..BF), E1..EC/EE/EF, ED (80..9F), F0 (90..BF),
F1..F3, F4 (80..8F), each followed by 80..BF continuation bytes. -/
def utf8Cont (c : Nat) : Bool := 0x80 ≤ c && c ≤ 0xBF

def validUtf8 : List Nat → Bool
  | [] => true
  | b :: rest =>
    if b ≤ 0x7F then validUtf8 rest
    else if 0xC2 ≤ b && b ≤ 0xDF then
      match rest with
      | c1 :: r => utf8Cont c1 && validUtf8 r
      | [] => false
    else if b = 0xE0 then
      match rest with
      | c1 :: c2 :: r => (0xA0 ≤ c1 && c1 ≤ 0xBF) && utf8Cont c2 && validUtf8 r
      | _ => false
    else if (0xE1 ≤ b && b ≤ 0xEC) || b = 0xEE || b = 0xEF then
      match rest with
      | c1 :: c2 :: r => utf8Cont c1 && utf8Cont c2 && validUtf8 r
      | _ => false
    else if b = 0xED then
      match rest with
      | c1 :: c2 :: r => (0x80 ≤ c1 && c1 ≤ 0x9F) && utf8Cont c2 && validUtf8 r
      | _ => false
    else if b = 0xF0 then
      match rest with
      | c1 :: c2 :: c3 :: r =>
        (0x90 ≤ c1 && c1 ≤ 0xBF) && utf8Cont c2 && utf8Cont c3 && validUtf8 r
      | _ => false
    else if 0xF1 ≤ b && b ≤ 0xF3 then
      match rest with
      | c1 :: c2 :: c3 :: r =>
        utf8Cont c1 && utf8Cont c2 && utf8Cont c3 && validUtf8 r
      | _ => false
    else if b = 0xF4 then
      match rest with
      | c1 :: c2 :: c3 :: r =>
        (0x80 ≤ c1 && c1 ≤ 0x8F) && utf8Cont c2 && utf8Cont c3 && validUtf8 r
      | _ => false
    else false

/-- Rust `struct ProxyRoute { route: String, proxy: Uri, ... }` (main.rs:101-106).
`proxy` is kept as the string `self.proxy.to_string()` yields; the stored
`client` is the external HTTP client, passed to `request` as the `backend`
parameter. -/
structure ProxyRoute where
  route : List Char
  proxy : List Char
deriving DecidableEq, Repr

/-- Function `ProxyRoute::matches` (main.rs:113-115): `path.starts_with(&self.route)`. -/
def ProxyRoute.matches (self : ProxyRoute) (path : List Char) : Bool :=
  self.route.isPrefixOf path

/-- Function `ProxyRoute::request` (main.rs:117-128):
`(self.proxy.to_string() + path.strip_prefix(&self.route).unwrap()).parse().unwrap()`
-- both unwraps panic on failure -- then
`Request::builder().method(..).uri(..).body(..)` (empty header map) handed to
`self.client.request`, whose error `ProxyResponseFuture::poll`
(main.rs:76-89) converts into `Err(ProxyError::Http(..))`.
Returns the outcome together with the list of outbound requests issued. -/
def ProxyRoute.request (parseUri : List Char → Bool)
    (backend : OutboundRequest → Except HyperError Response)
    (self : ProxyRoute) (req : Request) :
    DispatchOutcome × List OutboundRequest :=
  match stripPrefix req.path self.route with
  | none => (.panic, [])
  | some suffix =>
    let uriStr := self.proxy ++ suffix
    if parseUri uriStr then
      let out : OutboundRequest :=
        { method := req.method, uri := uriStr, headers := [], body := req.body }
      match backend out with
      | .ok r => (.ok r, [out])
      | .error e => (.err (.http e), [out])
    else (.panic, [])

/-- Function `StaticFileFuture::poll` (main.rs:145-176): `File::open(&self.path)`;
on success `read_to_string` (Ok → status 200 with the contents,
Err → `Err(ProxyError::Proxy(..))`); on `NotFound` → status 404 with empty
body; any other open error → `Err(ProxyError::Proxy(..))`. -/
def StaticFileFuture.poll (fs : List (List Char) → OpenResult)
    (path : List Char) : Except ProxyError Response :=
  match fs (resolvePath path) with
  | .file bytes =>
    if validUtf8 bytes then
      .ok { status := 200, headers := [], body := bytes }
    else
      .error (.proxy .invalidData)
  | .openErr kind =>
    match kind with
    | .notFound => .ok { status := 404, headers := [], body := [] }
    | k => .error (.proxy k)

/-- Rust `struct DevProxService { root: PathBuf, proxies: Vec<ProxyRoute> }`
(main.rs:182-186).  `root` is kept as an absolute path string. -/
structure DevProxService where
  root : List Char
  proxies : List ProxyRoute
deriving DecidableEq, Repr

/-- Lift the `Result` of a resolved future into a `DispatchOutcome`. -/
def Except.toOutcome : Except ProxyError Response → DispatchOutcome
  | .ok r => .ok r
  | .error e => .err e

/-- The static branch of `DevProxService::call` (main.rs:214-215):
`StaticFileFuture::new(self.root.join(path.strip_prefix("/").unwrap()))`
(the unwrap panics when the path does not start with `/`). -/
def DevProxService.staticBranch (fs : List (List Char) → OpenResult)
    (self : DevProxService) (req : Request) :
    DispatchOutcome × List OutboundRequest :=
  match stripPrefix req.path ['/'] with
  | none => (.panic, [])
  | some rel =>
    ((StaticFileFuture.poll fs (pathJoin self.root rel)).toOutcome, [])

/-- Function `DevProxService::call` (main.rs:208-216): take `request.uri().path()`,
find the first proxy whose route is a prefix of it and delegate to
`ProxyRoute::request`; otherwise serve a static file under `root`. -/
def DevProxService.call (parseUri : List Char → Bool)
    (backend : OutboundRequest → Except HyperError Response)
    (fs : List (List Char) → OpenResult)
    (self : DevProxService) (req : Request) :
    DispatchOutcome × List OutboundRequest :=
  match self.proxies.find? (fun p => p.matches req.path) with
  | some proxy => proxy.request parseUri backend req
  | none => self.staticBranch fs req

/-- The outbound request that `ProxyRoute::request` builds for a matched
route: the inbound method and body, the URI `self.proxy.to_string() +
path.strip_prefix(&self.route).unwrap()`, and an empty header map. -/
def rewrittenOut (R : ProxyRoute) (req : Request) : OutboundRequest :=
  { method := req.method
    uri := R.proxy ++ req.path.drop R.route.length
    headers := []
    body := req.body }

/-- Fixtures for concrete witnesses: the configuration `main` builds
(document root plus the single `/api` route), some variations, concrete
file systems, and trivial models of the external URI parser and client. -/
def apiRoute : ProxyRoute :=
  { route := "/api".toList, proxy := "http://localhost:3000/api".toList }

def wwwService : DevProxService :=
  { root := "/srv/www".toList, proxies := [apiRoute] }

def okParse : List Char → Bool := fun _ => true

def noParse : List Char → Bool := fun _ => false

def okBackend : OutboundRequest → Except HyperError Response :=
  fun _ => .ok { status := 200, headers := [], body := [] }

def failBackend : OutboundRequest → Except HyperError Response :=
  fun _ => .error .transport

def emptyFs : List (List Char) → OpenResult := fun _ => .openErr .notFound

def deniedFs : List (List Char) → OpenResult := fun _ => .openErr .permissionDenied

/-- A file system with one file, `/srv/secret.txt`, with content `oops`
(bytes 111 111 112 115) -- a file OUTSIDE the document root `/srv/www`. -/
def secretFs : List (List Char) → OpenResult := fun p =>
  if p = ["srv".toList, "secret.txt".toList] then .file [111, 111, 112, 115]
  else .openErr .notFound

/-- A file system with one non-UTF-8 file `/srv/www/logo.png`
(bytes 137 80: 0x89 is never valid in UTF-8 as a leading byte). -/
def binFs : List (List Char) → OpenResult := fun p =>
  if p = ["srv".toList, "www".toList, "logo.png".toList] then .file [137, 80]
  else .openErr .notFound

/-- A file system with one UTF-8 file `/srv/www/index.html` with content
`<html></html>`. -/
def htmlBytes : List Nat :=
  [60, 104, 116, 109, 108, 62, 60, 47, 104, 116, 109, 108, 62]

def indexFs : List (List Char) → OpenResult := fun p =>
  if p = ["srv".toList, "www".toList, "index.html".toList] then .file htmlBytes
  else .openErr .notFound

def getReq (path : List Char) : Request :=
  { method := "GET".toList, path := path, query := none, headers := [], body := [] }

/-- Two routes with overlapping prefixes, for the first-match analysis. -/
def routeA : ProxyRoute :=
  { route := "/a".toList, proxy := "http://localhost:3001/a".toList }

def routeAb : ProxyRoute :=
  { route := "/ab".toList, proxy := "http://localhost:3002/ab".toList }

def twoRouteService : DevProxService :=
  { root := "/srv/www".toList, proxies := [routeA, routeAb] }

/-- A proxied request carrying one header, to observe header forwarding. -/
def cookieReq : Request :=
  { method := "GET".toList, path := "/api/users".toList, query := none
    headers := [("cookie".toList, "a=b".toList)], body := [1, 2, 3] }

/-- When route lookup succeeds, `call` delegates to `ProxyRoute::request`. -/
theorem call_eq_request (parseUri : List Char → Bool)
    (backend : OutboundRequest → Except HyperError Response)
    (fs : List (List Char) → OpenResult) (svc : DevProxService) (req : Request)
    (R : ProxyRoute)
    (hfind : svc.proxies.find? (fun p => p.matches req.path) = some R) :
    DevProxService.call parseUri backend fs svc req =
      R.request parseUri backend req := by
  unfold DevProxService.call
  rw [hfind]

/-- When route lookup fails, `call` delegates to the static branch. -/
theorem call_eq_staticBranch (parseUri : List Char → Bool)
    (backend : OutboundRequest → Except HyperError Response)
    (fs : List (List Char) → OpenResult) (svc : DevProxService) (req : Request)
    (hfind : svc.proxies.find? (fun p => p.matches req.path) = none) :
    DevProxService.call parseUri backend fs svc req =
      DevProxService.staticBranch fs svc req := by
  unfold DevProxService.call
  rw [hfind]

/-- Reducing the static branch once the leading slash strip succeeds. -/
theorem staticBranch_some (fs : List (List Char) → OpenResult)
    (svc : DevProxService) (req : Request) (rel : List Char)
    (hstrip : stripPrefix req.path ['/'] = some rel) :
    DevProxService.staticBranch fs svc req =
      ((StaticFileFuture.poll fs (pathJoin svc.root rel)).toOutcome, []) := by
  unfold DevProxService.staticBranch
  rw [hstrip]

/-- Core forwarding equation: when the matched route's prefix is a prefix of
the path and the rewritten URI parses, `ProxyRoute::request` sends exactly
the rewritten outbound request and maps the backend outcome. -/
theorem request_forward_eq (parseUri : List Char → Bool)
    (backend : OutboundRequest → Except HyperError Response)
    (R : ProxyRoute) (req : Request)
    (hm : R.route.isPrefixOf req.path = true)
    (hp : parseUri (R.proxy ++ req.path.drop R.route.length) = true) :
    R.request parseUri backend req =
      ((match backend (rewrittenOut R req) with
        | .ok r => DispatchOutcome.ok r
        | .error e => DispatchOutcome.err (.http e)), [rewrittenOut R req]) := by
  unfold ProxyRoute.request stripPrefix
  simp only [hm, if_true, hp, rewrittenOut]
  cases backend { method := req.method, uri := R.proxy ++ req.path.drop R.route.length,
                  headers := [], body := req.body } <;> rfl

/-- First-match property of `List.find?` over a decomposed route table. -/
theorem find?_first_of_split (p : ProxyRoute → Bool) (r : ProxyRoute)
    (l₂ : List ProxyRoute) :
    ∀ l₁ : List ProxyRoute, (∀ q ∈ l₁, p q = false) → p r = true →
      (l₁ ++ r :: l₂).find? p = some r
  | [], _, hr => by simp [List.find?, hr]
  | q :: l₁, hl, hr => by
    have hq : p q = false := hl q (List.mem_cons_self q l₁)
    simp only [List.cons_append, List.find?, hq]
    exact find?_first_of_split p r l₂ l₁
      (fun x hx => hl x (List.mem_cons_of_mem q hx)) hr


/-- C1: the claimed path-traversal rejection is absent from the code.  With
document root `/srv/www`, the non-route path `/../secret.txt` is joined
unchecked onto the root; the kernel resolves it to `/srv/secret.txt`, a file
OUTSIDE the document root (second conjunct), and the dispatch returns
status 200 with that file's bytes instead of the claimed 403/400. -/
theorem c1_path_traversal_serves_outside_root :
    DevProxService.call okParse okBackend secretFs wwwService
        (getReq "/../secret.txt".toList) =
      (.ok { status := 200, headers := [], body := [111, 111, 112, 115] }, [])
    ∧ (resolvePath wwwService.root).isPrefixOf
        (resolvePath (pathJoin wwwService.root "../secret.txt".toList)) = false := by
  decide

/-- C2: the dispatch is NOT infallible outward.  A non-not-found I/O error
during static resolution (here: permission denied opening
`/srv/www/index.html`) is returned as `Err(ProxyError::Proxy(..))` to the
connection layer instead of being converted to a 500 response. -/
theorem c2_io_error_escapes_to_caller :
    DevProxService.call okParse okBackend deniedFs wwwService
        (getReq "/index.html".toList) =
      (.err (.proxy .permissionDenied), []) := by
  decide

/-- C3: when the matched route's target concatenated with the stripped path
suffix does not parse as a URI, `ProxyRoute::request` panics on the
`parse().unwrap()` (main.rs:121) instead of producing the claimed 502
response; no outbound request is made. -/
theorem c3_unparseable_rewrite_panics (parseUri : List Char → Bool)
    (backend : OutboundRequest → Except HyperError Response)
    (fs : List (List Char) → OpenResult) (svc : DevProxService) (req : Request)
    (R : ProxyRoute)
    (hfind : svc.proxies.find? (fun p => p.matches req.path) = some R)
    (hp : parseUri (R.proxy ++ req.path.drop R.route.length) = false) :
    DevProxService.call parseUri backend fs svc req = (.panic, []) := by
  have hm0 := List.find?_some hfind
  have hm : R.route.isPrefixOf req.path = true := hm0
  rw [call_eq_request parseUri backend fs svc req R hfind]
  simp [ProxyRoute.request, stripPrefix, hm, hp]

/-- Witness for C3 at a concrete input: the default `/api` route, request
path `/api/x`, and a parse model rejecting the concatenation. -/
theorem c3_unparseable_rewrite_panics_witness :
    DevProxService.call noParse okBackend emptyFs wwwService
        (getReq "/api/x".toList) = (.panic, []) :=
  c3_unparseable_rewrite_panics noParse okBackend emptyFs wwwService
    (getReq "/api/x".toList) apiRoute (by decide) (by decide)

/-- C4: when the backend transport fails, the dispatch does NOT return a 502
response: `ProxyResponseFuture::poll` (main.rs:85) converts the `hyper`
error into `Err(ProxyError::Http(..))`, which escapes to the connection
layer. -/
theorem c4_transport_error_escapes_to_caller (parseUri : List Char → Bool)
    (backend : OutboundRequest → Except HyperError Response)
    (fs : List (List Char) → OpenResult) (svc : DevProxService) (req : Request)
    (R : ProxyRoute) (e : HyperError)
    (hfind : svc.proxies.find? (fun p => p.matches req.path) = some R)
    (hp : parseUri (R.proxy ++ req.path.drop R.route.length) = true)
    (hb : backend (rewrittenOut R req) = .error e) :
    DevProxService.call parseUri backend fs svc req =
      (.err (.http e), [rewrittenOut R req]) := by
  have hm0 := List.find?_some hfind
  have hm : R.route.isPrefixOf req.path = true := hm0
  rw [call_eq_request parseUri backend fs svc req R hfind,
    request_forward_eq parseUri backend R req hm hp, hb]

/-- Witness for C4 at a concrete input: the default `/api` route, request
path `/api/x`, and a backend whose connection fails. -/
theorem c4_transport_error_escapes_to_caller_witness :
    DevProxService.call okParse failBackend emptyFs wwwService
        (getReq "/api/x".toList) =
      (.err (.http .transport), [rewrittenOut apiRoute (getReq "/api/x".toList)]) :=
  c4_transport_error_escapes_to_caller okParse failBackend emptyFs wwwService
    (getReq "/api/x".toList) apiRoute .transport (by decide) (by decide) rfl

/-- C5: route lookup is first-match in table order.  If the table splits as
`l₁ ++ r :: l₂` with nothing in `l₁` matching and `r` matching, lookup
returns `r` (in particular the earliest of several matching entries); and if
no entry matches, lookup returns `none` and `call` takes the static-file
branch. -/
theorem c5_route_lookup_first_match (parseUri : List Char → Bool)
    (backend : OutboundRequest → Except HyperError Response)
    (fs : List (List Char) → OpenResult) (svc : DevProxService) (req : Request)
    (l₁ l₂ : List ProxyRoute) (r : ProxyRoute) :
    (svc.proxies = l₁ ++ r :: l₂ →
      (∀ q ∈ l₁, q.matches req.path = false) →
      r.matches req.path = true →
      svc.proxies.find? (fun p => p.matches req.path) = some r)
    ∧ ((∀ q ∈ svc.proxies, q.matches req.path = false) →
      svc.proxies.find? (fun p => p.matches req.path) = none
      ∧ DevProxService.call parseUri backend fs svc req =
          DevProxService.staticBranch fs svc req) := by
  constructor
  · intro ht hl hr
    rw [ht]
    exact find?_first_of_split _ r l₂ l₁ hl hr
  · intro hnone
    have hfind : svc.proxies.find? (fun p => p.matches req.path) = none :=
      List.find?_eq_none.mpr (fun q hq => by simp [hnone q hq])
    exact ⟨hfind, call_eq_staticBranch parseUri backend fs svc req hfind⟩

/-- Witness for C5: with overlapping prefixes `/a` and `/ab` and path
`/abc`, the earlier entry `/a` is selected; with path `/index.html` and the
single `/api` route, lookup returns `none` and the static branch is taken. -/
theorem c5_route_lookup_first_match_witness :
    twoRouteService.proxies.find?
        (fun p => p.matches (getReq "/abc".toList).path) = some routeA
    ∧ (wwwService.proxies.find?
        (fun p => p.matches (getReq "/index.html".toList).path) = none
      ∧ DevProxService.call okParse okBackend indexFs wwwService
          (getReq "/index.html".toList) =
        DevProxService.staticBranch indexFs wwwService
          (getReq "/index.html".toList)) :=
  ⟨(c5_route_lookup_first_match okParse okBackend indexFs twoRouteService
      (getReq "/abc".toList) [] [routeAb] routeA).1 rfl (by decide) (by decide),
   (c5_route_lookup_first_match okParse okBackend indexFs wwwService
      (getReq "/index.html".toList) [] [] routeA).2 (by decide)⟩

/-- C6 counterexample: the claim quantifies over EVERY route whose prefix
matches, but dispatch rewrites against the first match only.  With routes
`/a` -> `http://localhost:3001/a` and `/ab` -> `http://localhost:3002/ab`
and path `/abc`, the second route's prefix matches, yet the single request
forwarded has URI `http://localhost:3001/abc`, which is not the second
route's target concatenated with its stripped suffix
(`http://localhost:3002/abc`). -/
theorem c6_counterexample_second_matching_route :
    routeAb.matches "/abc".toList = true
    ∧ (DevProxService.call okParse okBackend emptyFs twoRouteService
        (getReq "/abc".toList)).2.map OutboundRequest.uri =
        ["http://localhost:3001/abc".toList]
    ∧ ("http://localhost:3001/abc".toList ≠
        routeAb.proxy ++ "/abc".toList.drop routeAb.route.length) := by
  decide

/-- C6 amended: for the FIRST route `R` in table order whose prefix matches
the path (i.e. the one lookup returns), when the rewritten URI parses,
dispatch forwards exactly one outbound request, whose URI is `R.target`
concatenated with the path minus the leading `R.prefix`, with the inbound
method and body. -/
theorem c6_forward_first_match_rewrite (parseUri : List Char → Bool)
    (backend : OutboundRequest → Except HyperError Response)
    (fs : List (List Char) → OpenResult) (svc : DevProxService) (req : Request)
    (R : ProxyRoute)
    (hfind : svc.proxies.find? (fun p => p.matches req.path) = some R)
    (hp : parseUri (R.proxy ++ req.path.drop R.route.length) = true) :
    (DevProxService.call parseUri backend fs svc req).2 =
      [{ method := req.method, uri := R.proxy ++ req.path.drop R.route.length,
         headers := [], body := req.body }] := by
  have hm0 := List.find?_some hfind
  have hm : R.route.isPrefixOf req.path = true := hm0
  rw [call_eq_request parseUri backend fs svc req R hfind,
    request_forward_eq parseUri backend R req hm hp]
  rfl

/-- Witness for C6 amended: path `/abc` against the two overlapping routes;
the forwarded request is the rewrite against the first route `/a`. -/
theorem c6_forward_first_match_rewrite_witness :
    (DevProxService.call okParse okBackend emptyFs twoRouteService
        (getReq "/abc".toList)).2 =
      [{ method := "GET".toList, uri := "http://localhost:3001/abc".toList,
         headers := [], body := [] }] := by
  have h := c6_forward_first_match_rewrite okParse okBackend emptyFs
    twoRouteService (getReq "/abc".toList) routeA (by decide) (by decide)
  exact h

/-- C7 counterexample: the inbound request carries the header
`cookie: a=b`, yet the single outbound request built by
`ProxyRoute::request` has an empty header map -- `Request::builder()` is
given only method, URI and body (main.rs:122-126), so no header is
forwarded, refuting byte-for-byte header forwarding. -/
theorem c7_counterexample_header_dropped :
    cookieReq.headers = [("cookie".toList, "a=b".toList)]
    ∧ (DevProxService.call okParse okBackend emptyFs wwwService cookieReq).2.map
        OutboundRequest.headers = [[]] := by
  decide

/-- C7 amended: on the proxy path the outbound request preserves the inbound
method and body, but its header map is empty: no inbound header is
forwarded. -/
theorem c7_outbound_headers_empty (parseUri : List Char → Bool)
    (backend : OutboundRequest → Except HyperError Response)
    (fs : List (List Char) → OpenResult) (svc : DevProxService) (req : Request)
    (R : ProxyRoute)
    (hfind : svc.proxies.find? (fun p => p.matches req.path) = some R)
    (hp : parseUri (R.proxy ++ req.path.drop R.route.length) = true) :
    (DevProxService.call parseUri backend fs svc req).2.map
        OutboundRequest.headers = [[]]
    ∧ (DevProxService.call parseUri backend fs svc req).2.map
        OutboundRequest.method = [req.method]
    ∧ (DevProxService.call parseUri backend fs svc req).2.map
        OutboundRequest.body = [req.body] := by
  have hm0 := List.find?_some hfind
  have hm : R.route.isPrefixOf req.path = true := hm0
  rw [call_eq_request parseUri backend fs svc req R hfind,
    request_forward_eq parseUri backend R req hm hp]
  exact ⟨rfl, rfl, rfl⟩

/-- Witness for C7 amended: the `cookie: a=b` request proxied through the
default `/api` route. -/
theorem c7_outbound_headers_empty_witness :
    (DevProxService.call okParse okBackend emptyFs wwwService cookieReq).2.map
        OutboundRequest.headers = [[]]
    ∧ (DevProxService.call okParse okBackend emptyFs wwwService cookieReq).2.map
        OutboundRequest.method = ["GET".toList]
    ∧ (DevProxService.call okParse okBackend emptyFs wwwService cookieReq).2.map
        OutboundRequest.body = [[1, 2, 3]] :=
  c7_outbound_headers_empty okParse okBackend emptyFs wwwService cookieReq
    apiRoute (by decide) (by decide)

/-- C8 counterexample: the claim promises 200 with the file's exact bytes
for ARBITRARY byte content, but the code reads via `read_to_string`
(main.rs:156), which fails on non-UTF-8 content.  The file
`/srv/www/logo.png` exists at the resolved location with bytes 137 80, yet
the dispatch returns `Err(ProxyError::Proxy(InvalidData))`, not a 200. -/
theorem c8_counterexample_non_utf8_file :
    binFs (resolvePath (pathJoin wwwService.root "logo.png".toList)) =
      .file [137, 80]
    ∧ DevProxService.call okParse okBackend binFs wwwService
        (getReq "/logo.png".toList) = (.err (.proxy .invalidData), []) := by
  decide

/-- C8 amended: for a path matching no route, when the file at the resolved
location exists and its content is valid UTF-8 (the only content
`read_to_string` accepts), the dispatch returns 200 with the file's exact
bytes as body. -/
theorem c8_static_200_exact_bytes_utf8 (parseUri : List Char → Bool)
    (backend : OutboundRequest → Except HyperError Response)
    (fs : List (List Char) → OpenResult) (svc : DevProxService) (req : Request)
    (rel : List Char) (bytes : List Nat)
    (hnone : svc.proxies.find? (fun p => p.matches req.path) = none)
    (hstrip : stripPrefix req.path ['/'] = some rel)
    (hfs : fs (resolvePath (pathJoin svc.root rel)) = .file bytes)
    (hv : validUtf8 bytes = true) :
    DevProxService.call parseUri backend fs svc req =
      (.ok { status := 200, headers := [], body := bytes }, []) := by
  rw [call_eq_staticBranch parseUri backend fs svc req hnone,
    staticBranch_some fs svc req rel hstrip]
  unfold StaticFileFuture.poll
  rw [hfs]
  simp [hv, Except.toOutcome]

/-- Witness for C8 amended: `/index.html` under root `/srv/www` with the
UTF-8 content `<html></html>`. -/
theorem c8_static_200_exact_bytes_utf8_witness :
    DevProxService.call okParse okBackend indexFs wwwService
        (getReq "/index.html".toList) =
      (.ok { status := 200, headers := [], body := htmlBytes }, []) :=
  c8_static_200_exact_bytes_utf8 okParse okBackend indexFs wwwService
    (getReq "/index.html".toList) "index.html".toList htmlBytes
    (by decide) (by decide) (by decide) (by decide)

/-- C9: for a path matching no route with no file at the resolved location
(`File::open` fails with `NotFound`), the dispatch returns 404 with an
empty body. -/
theorem c9_static_404_empty_body (parseUri : List Char → Bool)
    (backend : OutboundRequest → Except HyperError Response)
    (fs : List (List Char) → OpenResult) (svc : DevProxService) (req : Request)
    (rel : List Char)
    (hnone : svc.proxies.find? (fun p => p.matches req.path) = none)
    (hstrip : stripPrefix req.path ['/'] = some rel)
    (hfs : fs (resolvePath (pathJoin svc.root rel)) = .openErr .notFound) :
    DevProxService.call parseUri backend fs svc req =
      (.ok { status := 404, headers := [], body := [] }, []) := by
  rw [call_eq_staticBranch parseUri backend fs svc req hnone,
    staticBranch_some fs svc req rel hstrip]
  unfold StaticFileFuture.poll
  rw [hfs]
  rfl

/-- Witness for C9: `/missing.txt` against an empty file system. -/
theorem c9_static_404_empty_body_witness :
    DevProxService.call okParse okBackend emptyFs wwwService
        (getReq "/missing.txt".toList) =
      (.ok { status := 404, headers := [], body := [] }, []) :=
  c9_static_404_empty_body okParse okBackend emptyFs wwwService
    (getReq "/missing.txt".toList) "missing.txt".toList
    (by decide) (by decide) (by decide)

/-- C10: dispatch reads only the path component of the request URI
(`request.uri().path()`); two requests differing only in query string
produce identical outcomes and identical outbound traffic. -/
theorem c10_query_string_ignored (parseUri : List Char → Bool)
    (backend : OutboundRequest → Except HyperError Response)
    (fs : List (List Char) → OpenResult) (svc : DevProxService) (req : Request)
    (q₁ q₂ : Option (List Char)) :
    DevProxService.call parseUri backend fs svc { req with query := q₁ } =
      DevProxService.call parseUri backend fs svc { req with query := q₂ } :=
  rfl
